import Mathlib

/-!
Shallow embedding of the query-classification and multi-corpus retrieval
pipeline of the legal-RAG application (files `app/agent_router.py`,
`app/retriever.py`, `app/concept_expander.py`, `app/scenario_processor.py`,
`app/chat_app.py`, `app/chat_ui.py`, `scripts/build_chunks.py`).

Strings are modelled as `List Char`.  External services (the classification /
generation model and the per-corpus vector indexes) are modelled as explicit
environment functions; a call that raises an exception in Python is modelled
as `Except.error ()` (for model calls) or `none` (for index queries).
-/

abbrev Str := List Char

/-- Python `str.lower()` (character-wise; the corpus keywords are ASCII). -/
def toLowerStr (s : Str) : Str := s.map Char.toLower

/-- Python `str.upper()`. -/
def toUpperStr (s : Str) : Str := s.map Char.toUpper

/-- Python `str.strip()` with no argument: drop whitespace on both ends. -/
def pyStrip (s : Str) : Str :=
  ((s.dropWhile Char.isWhitespace).reverse.dropWhile Char.isWhitespace).reverse

/-- Python `needle in hay` substring test. -/
def isSubOf (needle : Str) : Str → Bool
  | [] => needle.isEmpty
  | c :: t => needle.isPrefixOf (c :: t) || isSubOf needle t

/-- Drop a literal prefix, or fail (used to model literal parts of regexes). -/
def stripPre (p l : Str) : Option Str :=
  if p.isPrefixOf l then some (l.drop p.length) else none

/-- Regex `\s+`: at least one whitespace character, consumed greedily. -/
def eatWs1 : Str → Option Str
  | [] => none
  | c :: t => if c.isWhitespace then some (t.dropWhile Char.isWhitespace) else none

/-- Regex `\s*`: any run of whitespace, consumed greedily. -/
def eatWs0 (l : Str) : Str := l.dropWhile Char.isWhitespace

/-- Regex `\d+`: at least one digit, consumed greedily. -/
def eatDigits1 : Str → Option Str
  | [] => none
  | c :: t => if c.isDigit then some (t.dropWhile Char.isDigit) else none

/-- Regex `\.?`: an optional literal dot (greedy; no continuation here can
start with a dot, so greediness agrees with the regex). -/
def eatDot0 : Str → Str
  | '.' :: t => t
  | l => l

/-! ## `agent_router.py` -/

/-- The keyword table of `detect_acts_from_query` (`agent_router.py` 72-78),
in Python dict insertion order. -/
def act_keywords : List (Str × List Str) :=
  [("bns".data, ["bns".data, "nyaya".data, "sanhita".data, "bharatiya".data,
                 "new code".data, "2023".data]),
   ("ipc".data, ["ipc".data, "indian penal".data, "penal code".data,
                 "old code".data, "1860".data]),
   ("crpc".data, ["crpc".data, "criminal procedure".data, "procedure code".data,
                  "bail".data, "arrest".data, "trial".data]),
   ("cpc".data, ["cpc".data, "civil procedure".data, "civil code".data,
                 "suit".data, "plaint".data, "decree".data]),
   ("bsa".data, ["bsa".data, "evidence".data, "evidence act".data,
                 "proof".data, "witness".data, "exhibit".data])]

/-- The full corpus list `['bns', 'ipc', 'crpc', 'cpc', 'bsa']`. -/
def allActs : List Str :=
  ["bns".data, "ipc".data, "crpc".data, "cpc".data, "bsa".data]

/-- `agent_router.detect_acts_from_query`: keyword detection over the
lower-cased query; the full corpus list when nothing matched. -/
def detect_acts_from_query (query : Str) : List Str :=
  let ql := toLowerStr query
  let relevant :=
    (act_keywords.filter (fun p => p.2.any (fun kw => isSubOf kw ql))).map Prod.fst
  if relevant.isEmpty then allActs else relevant

/-- Match of regex `section\s+\d+` anchored at the current position. -/
def matchP1 (l : Str) : Bool :=
  (((stripPre "section".data l).bind eatWs1).bind eatDigits1).isSome

/-- Match of regex `sec\.?\s*\d+` anchored at the current position. -/
def matchP2 (l : Str) : Bool :=
  match stripPre "sec".data l with
  | some r => (eatDigits1 (eatWs0 (eatDot0 r))).isSome
  | none => false

/-- The literal two-character "section symbol" of the third pattern in
`is_section_query` (the source file contains U+0E22 U+0E07 there). -/
def sectionSymbol : Str := [Char.ofNat 0x0E22, Char.ofNat 0x0E07]

/-- Match of the third pattern (section symbol, `\s*`, `\d+`) at the
current position. -/
def matchP3 (l : Str) : Bool :=
  match stripPre sectionSymbol l with
  | some r => (eatDigits1 (eatWs0 r)).isSome
  | none => false

/-- Match of one of the corpus codes `(bns|ipc|crpc|cpc|bsa)` at the current
position (no code is a prefix of another, so ordered alternation is plain
disjunction). -/
def matchCode (l : Str) : Bool := allActs.any (fun c => c.isPrefixOf l)

/-- Match of `\d+\s+of\s+(bns|ipc|crpc|cpc|bsa)` at the current position
(the leading `\b` is handled by the scanner). -/
def matchP4body (l : Str) : Bool :=
  match eatDigits1 l with
  | none => false
  | some r =>
    match eatWs1 r with
    | none => false
    | some r2 =>
      match stripPre "of".data r2 with
      | none => false
      | some r3 =>
        match eatWs1 r3 with
        | none => false
        | some r4 => matchCode r4

/-- Match of `(bns|ipc|crpc|cpc|bsa)\s+section\s+\d+` at the current position. -/
def matchP5 (l : Str) : Bool :=
  allActs.any (fun code =>
    match stripPre code l with
    | none => false
    | some r =>
      match eatWs1 r with
      | none => false
      | some r2 =>
        match stripPre "section".data r2 with
        | none => false
        | some r3 =>
          match eatWs1 r3 with
          | none => false
          | some r4 => (eatDigits1 r4).isSome)

/-- `re.search` for a position-anchored matcher: try every suffix. -/
def scanStr (p : Str → Bool) : Str → Bool
  | [] => false
  | c :: t => p (c :: t) || scanStr p t

/-- Is a word boundary `\b` satisfied before the current position, given the
previous character (if any)?  Python `\w` is `[a-z0-9_]` on the lower-cased
query. -/
def boundaryOk : Option Char → Bool
  | none => true
  | some c => !(c.isAlphanum || c == '_')

/-- `re.search` for the fourth pattern, tracking the previous character for
its leading `\b` (the first matched character is a digit, a word character,
so the boundary holds exactly when the previous character is not one). -/
def scanP4 (prev : Option Char) : Str → Bool
  | [] => false
  | c :: t => (boundaryOk prev && matchP4body (c :: t)) || scanP4 (some c) t

/-- `agent_router.is_section_query`: any of the five section patterns found
anywhere in the lower-cased query. -/
def is_section_query (query : Str) : Bool :=
  let ql := toLowerStr query
  scanStr matchP1 ql || scanStr matchP2 ql || scanStr matchP3 ql ||
    scanP4 none ql || scanStr matchP5 ql

/-- `agent_router.classify_query`.  The model call is the environment
`llm`; `Except.error ()` models a raised exception.  The second component
records whether the model-based classifier was invoked.  On success the code
returns `response...content.lower().strip()`. -/
def classify_query (llm : Str → Except Unit Str) (query : Str) :
    Except Unit Str × Bool :=
  if is_section_query query then (Except.ok "section".data, false)
  else
    match llm query with
    | Except.ok content => (Except.ok (pyStrip (toLowerStr content)), true)
    | Except.error e => (Except.error e, true)

/-! ## `retriever.py` -/

/-- The metadata record stored with each embedded chunk
(`scripts/embed_to_endee.py` 68-74, minus the `document` key, which
`retrieve_direct` strips off).  `Option` models a possibly missing dict key
(`meta.get(key, default)`); the `section` key is named `sectionNum` because
`section` is reserved in Lean. -/
structure MetaRec where
  sectionNum : Option Str
  section_display : Option Str
  heading : Option Str
  act : Option Str
deriving DecidableEq

/-- One hit returned by an index query: the stored document text plus the
remaining metadata. -/
structure Hit where
  document : Str
  meta : MetaRec
deriving DecidableEq

/-- The `{"documents": [...], "metadatas": [...]}` result dict of
`retrieve_direct`. -/
structure Retrieval where
  documents : List Str
  metadatas : List MetaRec
deriving DecidableEq

/-- A vector-search environment: query text (standing for its embedding,
computed once per call), index name, `top_k` ↦ the hits, or `none` when the
index call raises. -/
abbrev RetrEnv := Str → Str → Nat → Option (List Hit)

/-- The loop body of `retrieve_direct` over one index's hits: keep a hit
exactly when its stored document text is non-empty (`if doc_content:`), and
the document / metadata appends are paired. -/
def cleanHits (hits : List Hit) : List (Str × MetaRec) :=
  hits.filterMap (fun h => if h.document.isEmpty then none else some (h.document, h.meta))

/-- The index names `retrieve_direct` iterates over:
`[f"{act}_sections" for act in detect_acts_from_query(query_text)]`. -/
def retrievalIndexes (query : Str) : List Str :=
  (detect_acts_from_query query).map (fun a => a ++ "_sections".data)

/-- `retriever.retrieve_direct`: fan out over the detected corpus indexes; a
failing index call (`none`) contributes nothing; hits are appended in
iteration order as parallel document/metadata pairs. -/
def retrieve_direct (env : RetrEnv) (query : Str) (n : Nat) : Retrieval :=
  let pairs :=
    ((retrievalIndexes query).map (fun idx =>
      match env query idx n with
      | some hits => cleanHits hits
      | none => [])).flatten
  { documents := pairs.map Prod.fst, metadatas := pairs.map Prod.snd }

/-! ## `concept_expander.py` -/

/-- The static synonym cache `OFFENSE_CACHE`. -/
def OFFENSE_CACHE : List (Str × List Str) :=
  [("theft".data, ["larceny".data, "stealing".data]),
   ("riot".data, ["unlawful assembly".data, "mob violence".data])]

/-- Python `str.strip('"')`: drop double quotes on both ends. -/
def stripQuotes (s : Str) : Str :=
  ((s.dropWhile (fun c => c == '"')).reverse.dropWhile (fun c => c == '"')).reverse

/-- Python `str.split(sep)` for a single-character separator. -/
def splitOnChar (sep : Char) : Str → List Str
  | [] => [[]]
  | c :: t =>
    if c = sep then [] :: splitOnChar sep t
    else
      match splitOnChar sep t with
      | [] => [[c]]
      | h :: r => (c :: h) :: r

/-- The success-path variation list of `expand_offenses`:
`[offense] + [v.strip('"').strip() for v in content.split("\n") if v.strip()]`. -/
def variations (offense content : Str) : List Str :=
  offense ::
    ((splitOnChar '\n' content).filter (fun v => !(pyStrip v).isEmpty)).map
      (fun v => pyStrip (stripQuotes v))

/-- One iteration of the `expand_offenses` loop.  Cache hit: union in the
cached synonyms and `continue`.  Model success: union in the variation
list.  Model failure (caught exception): keep just the original offense
term. -/
def expandStep (llm : Str → Except Unit Str) (expanded : Finset Str)
    (offense : Str) : Finset Str :=
  match OFFENSE_CACHE.lookup (toLowerStr offense) with
  | some syns => expanded ∪ syns.toFinset
  | none =>
    match llm offense with
    | Except.ok content => expanded ∪ (variations offense content).toFinset
    | Except.error _ => insert offense expanded

/-- `concept_expander.expand_offenses`, as the set it accumulates (the Python
function returns `list(expanded)` in an unspecified set order; only
membership is observable). -/
def expand_offenses (llm : Str → Except Unit Str) (offense_list : List Str) :
    Finset Str :=
  offense_list.foldl (expandStep llm) ∅

/-! ## `scenario_processor.py` -/

/-- The parsed JSON dict of `analyze_scenario` (`Option` = key missing). -/
structure ScenarioDict where
  primary_offense : Option Str
  related_offenses : Option (List Str)
  relevant_acts : Option (List Str)
  key_elements : Option (List Str)
deriving DecidableEq

/-- Python falsiness of the parsed dict: `{}` (no keys) is falsy. -/
def dictFalsy (d : ScenarioDict) : Bool :=
  d.primary_offense.isNone && d.related_offenses.isNone &&
    d.relevant_acts.isNone && d.key_elements.isNone

/-- The act fallback of `analyze_scenario`: `if not result.get("relevant_acts")`
(key missing or empty list) fill in `detect_acts_from_query(scenario)`. -/
def fillRelevantActs (result : ScenarioDict) (scenario : Str) : ScenarioDict :=
  if result.relevant_acts.getD [] = [] then
    { result with relevant_acts := some (detect_acts_from_query scenario) }
  else result

/-- `scenario_processor.analyze_scenario`: the model call plus strict JSON
parse is the environment `llm` (`Except.error ()` = transport error or
unparseable JSON, both of which raise); on success the relevant-acts
fallback is applied. -/
def analyze_scenario (llm : Str → Except Unit ScenarioDict) (scenario : Str) :
    Except Unit ScenarioDict :=
  match llm scenario with
  | Except.error e => Except.error e
  | Except.ok result => Except.ok (fillRelevantActs result scenario)

/-! ## `chat_app.py` -/

/-- `chat_app.normalize_section_query`, regex
`(?:section|sec\.?)\s*(\d+)|^(\d+)$` over the lower-cased query: the capture
of the first match, else the whole query when it is all digits. -/
def normAt (l : Str) : Option Str :=
  (match stripPre "section".data l with
   | some r =>
     let ds := (eatWs0 r).takeWhile Char.isDigit
     if ds.isEmpty then none else some ds
   | none => none) <|>
  (match stripPre "sec".data l with
   | some r =>
     let ds := (eatWs0 (eatDot0 r)).takeWhile Char.isDigit
     if ds.isEmpty then none else some ds
   | none => none)

/-- Scan for the first position where the first alternative of
`normalize_section_query`'s regex matches. -/
def scanNorm : Str → Option Str
  | [] => none
  | c :: t =>
    match normAt (c :: t) with
    | some d => some d
    | none => scanNorm t

/-- `chat_app.normalize_section_query` (the anchored second alternative
`^(\d+)$` can only match when the whole query is digits, in which case the
first alternative matches nowhere, so trying it second is equivalent). -/
def normalize_section_query (query : Str) : Option Str :=
  let ql := toLowerStr query
  match scanNorm ql with
  | some d => some d
  | none => if !ql.isEmpty && ql.all Char.isDigit then some ql else none

/-- `chat_app.extract_section_numbers`, regex
`BNS Section (\d+)|Section (\d+)` via `re.findall`: both alternatives
capture the digit run after a literal `"Section "`, so the collected digit
strings are exactly the non-empty digit runs found right after `"Section "`
(case-sensitive), scanning left to right without overlap.  The `Nat` fuel is
the remaining input length, which bounds the recursion. -/
def extractAux : Nat → Str → List Str
  | 0, _ => []
  | _, [] => []
  | Nat.succ k, c :: rest =>
    match stripPre "Section ".data (c :: rest) with
    | some rem =>
      let ds := rem.takeWhile Char.isDigit
      if ds.isEmpty then extractAux k rest
      else ds :: extractAux k (rem.dropWhile Char.isDigit)
    | none => extractAux k rest

/-- `chat_app.extract_section_numbers` (the Python set of captured digit
strings, as a list; only emptiness and membership are consumed). -/
def extract_section_numbers (text : Str) : List Str :=
  extractAux text.length text

/-- `scripts/build_chunks.format_section_number`: strip, drop non-digits,
zero-pad to width 3. -/
def format_section_number (s : Str) : Str :=
  let digits := (pyStrip s).filter Char.isDigit
  List.replicate (3 - digits.length) '0' ++ digits

/-- `chat_app.safe_display_metadata`: fill every key with its default
(`act` is upper-cased, `section_display` defaults to `f"Section {section}"`). -/
def safe_display_metadata (m : MetaRec) : MetaRec :=
  { sectionNum := some (m.sectionNum.getD []),
    section_display := some (m.section_display.getD
      ("Section ".data ++ m.sectionNum.getD [])),
    heading := some (m.heading.getD []),
    act := some (toUpperStr (m.act.getD "UNKNOWN".data)) }

/-- `chat_app.query_all_acts`: bridge to `retrieve_direct`. -/
def query_all_acts (env : RetrEnv) (query : Str) (n : Nat) : Retrieval :=
  retrieve_direct env query n

/-- `chat_app.search_section_all_acts`: retrieve with the synthetic query
`f"Section {section_num}"` and `n_results=5`. -/
def search_section_all_acts (env : RetrEnv) (section_num : Str) : Retrieval :=
  retrieve_direct env ("Section ".data ++ section_num) 5

/-- Python `dict.setdefault(act, []).append(text)` over an insertion-ordered
dict of lists: append to the existing group, else add a new group at the
end. -/
def appendToAct (groups : List (Str × List Str)) (act : Str) (v : Str) :
    List (Str × List Str) :=
  match groups with
  | [] => [(act, [v])]
  | (a, vs) :: t =>
    if a = act then (a, vs ++ [v]) :: t else (a, vs) :: appendToAct t act v

/-- All entry texts of a grouped-by-act rendering, in group-then-entry
order. -/
def groupTexts (groups : List (Str × List Str)) : List Str :=
  (groups.map Prod.snd).flatten

/-- The loop body of `chat_app.display_referenced_sections` (lines 74-84):
state is (groups, seen).  An entry is considered when no section was
mentioned or its section number is mentioned; its text
`f"{section_display}: {heading}".strip()` is added once, to its act's
group. -/
def drsStep (mentioned : List Str)
    (st : List (Str × List Str) × List Str) (meta : MetaRec) :
    List (Str × List Str) × List Str :=
  let sn := meta.sectionNum.getD []
  let disp := meta.section_display.getD ("Section ".data ++ sn)
  let hd := meta.heading.getD []
  let act := meta.act.getD "BNS".data
  if mentioned = [] ∨ sn ∈ mentioned then
    let text := pyStrip (disp ++ ": ".data ++ hd)
    if text ≠ [] ∧ text ∉ st.2 then (appendToAct st.1 act text, text :: st.2)
    else st
  else st

/-- `chat_app.display_referenced_sections`, as the grouped-by-act rendering
it emits: act groups in first-seen order, entry texts in retrieval order,
deduplicated through the `seen` set. -/
def display_referenced_sections (metas : List MetaRec) (analysis : Str) :
    List (Str × List Str) :=
  (metas.foldl (drsStep (extract_section_numbers analysis)) ([], [])).1

/-! ## `chat_ui.py` -/

/-- One entry of the `sections` list built by `run_legal_analysis`
(lines 180-187). -/
structure Citation where
  sectionNum : Str
  display : Str
  heading : Str
  act : Str
deriving DecidableEq

/-- The section-extraction step of `chat_ui.run_legal_analysis`
(lines 159-188): pass each metadata record through
`safe_display_metadata`, then keep it when nothing was mentioned in the
generated analysis or its section number is mentioned.  No deduplication is
performed. -/
def buildSectionsUI (analysis : Str) (metas : List MetaRec) : List Citation :=
  let mentioned := extract_section_numbers analysis
  metas.filterMap (fun meta =>
    let m := safe_display_metadata meta
    let sn := m.sectionNum.getD []
    if mentioned = [] ∨ sn ∈ mentioned then
      some { sectionNum := sn,
             display := m.section_display.getD ("Section ".data ++ sn),
             heading := m.heading.getD [],
             act := m.act.getD "UNKNOWN".data }
    else none)

/-- The grouped-by-act rendering of `chat_ui.render_message` (lines
222-233): group the section entries by act in first-seen order, each entry
shown as `f"{sec['display']}: {sec['heading']}"`.  No deduplication. -/
def groupByActUI (secs : List Citation) : List (Str × List Str) :=
  secs.foldl (fun g c => appendToAct g c.act (c.display ++ ": ".data ++ c.heading)) []

/-- Python `" ".flatten(offenses)`. -/
def joinSpace : List Str → Str
  | [] => []
  | [x] => x
  | x :: y :: t => x ++ ' ' :: joinSpace (y :: t)

/-- The scenario-path search key of `chat_ui.run_legal_analysis` (lines
145-146): `" ".flatten([scenario_data.get("primary_offense", query)] +
scenario_data.get("related_offenses", []))`. -/
def scenario_search_key (sd : ScenarioDict) (query : Str) : Str :=
  joinSpace (sd.primary_offense.getD query :: sd.related_offenses.getD [])

/-- The scenario half of the retrieval dispatch (`chat_ui.run_legal_analysis`
lines 140-146): analyze the scenario; a falsy analysis dict falls back to
the raw query, otherwise the joined offense names are the search key.  A
raised analysis failure propagates. -/
def scenarioBranch (sEnv : Str → Except Unit ScenarioDict) (rEnv : RetrEnv)
    (query : Str) : Except Unit Retrieval :=
  match analyze_scenario sEnv query with
  | Except.error e => Except.error e
  | Except.ok sd =>
    Except.ok (if dictFalsy sd then query_all_acts rEnv query 4
               else query_all_acts rEnv (scenario_search_key sd query) 4)

/-- The document-retrieval step of `chat_ui.run_legal_analysis` (lines
126-150): section-number queries go through `search_section_all_acts` with
a raw-query fallback on zero documents; otherwise classification picks the
direct or scenario path.  Any exception raised inside is caught by the
`except` clause, which shows an error banner (the `Bool` component) and
leaves the empty result pair. -/
def run_retrieval (cEnv : Str → Except Unit Str)
    (sEnv : Str → Except Unit ScenarioDict) (rEnv : RetrEnv) (query : Str) :
    Retrieval × Bool :=
  let attempt : Except Unit Retrieval :=
    match normalize_section_query query with
    | some section_num =>
      let r := search_section_all_acts rEnv section_num
      Except.ok (if r.documents.isEmpty then query_all_acts rEnv query 3 else r)
    | none =>
      match (classify_query cEnv query).1 with
      | Except.error e => Except.error e
      | Except.ok label =>
        if label = "direct".data then Except.ok (query_all_acts rEnv query 5)
        else scenarioBranch sEnv rEnv query
  match attempt with
  | Except.ok r => (r, false)
  | Except.error _ => ({ documents := [], metadatas := [] }, true)

/-! ## Concrete artifacts used by witnesses and counterexamples -/

/-- A sample stored hit, as ingestion (`embed_to_endee.py`) produces it. -/
def h0 : Hit :=
  ⟨"BNS Section 302: Murder".data,
   ⟨some "302".data, some "Section 302".data, some "Murder".data, some "BNS".data⟩⟩

/-- A sample metadata record with zero-padded stored section `"045"`, as
`build_chunks.format_section_number` pads it at ingestion. -/
def c9meta : MetaRec :=
  ⟨some "045".data, some "Section 045".data, some "Murder".data, some "bns".data⟩

/-- A minimal metadata record whose stored section is the padded `"045"`. -/
def c10meta : MetaRec := ⟨some "045".data, none, none, none⟩

/-- A sample parsed scenario dict (`primary_offense="theft"`). -/
def theftDict : ScenarioDict := ⟨some "theft".data, some [], some ["bns".data], none⟩

/-! ## Helper lemmas -/

lemma flatten_eq_nil_of_forall {α β : Type} (f : β → List α) (l : List β)
    (h : ∀ x ∈ l, f x = []) : (l.map f).flatten = [] := by
  induction l with
  | nil => rfl
  | cons a t ih =>
    simp only [List.map_cons, List.flatten_cons, h a (List.mem_cons_self a t),
      List.nil_append]
    exact ih (fun x hx => h x (List.mem_cons_of_mem a hx))

lemma detect_acts_all_of_no_keyword (q : Str)
    (h : ∀ p ∈ act_keywords, ∀ kw ∈ p.2, isSubOf kw (toLowerStr q) = false) :
    detect_acts_from_query q = allActs := by
  unfold detect_acts_from_query
  have hf : act_keywords.filter
      (fun p => p.2.any (fun kw => isSubOf kw (toLowerStr q))) = [] := by
    rw [List.filter_eq_nil_iff]
    intro p hp
    simp only [List.any_eq_true, not_exists, not_and, Bool.not_eq_true]
    intro kw hkw
    exact h p hp kw hkw
  simp [hf]

lemma detect_acts_mem_of_keyword (q : Str) (p : Str × List Str)
    (hp : p ∈ act_keywords) (kw : Str) (hkw : kw ∈ p.2)
    (hsub : isSubOf kw (toLowerStr q) = true) :
    p.1 ∈ detect_acts_from_query q := by
  unfold detect_acts_from_query
  have hmem : p ∈ act_keywords.filter
      (fun p => p.2.any (fun kw => isSubOf kw (toLowerStr q))) := by
    rw [List.mem_filter]
    exact ⟨hp, by simp only [List.any_eq_true]; exact ⟨kw, hkw, hsub⟩⟩
  have hmem1 : p.1 ∈ (act_keywords.filter
      (fun p => p.2.any (fun kw => isSubOf kw (toLowerStr q)))).map Prod.fst :=
    List.mem_map_of_mem Prod.fst hmem
  have hne : ((act_keywords.filter
      (fun p => p.2.any (fun kw => isSubOf kw (toLowerStr q)))).map Prod.fst).isEmpty
      = false := by
    cases hl : (act_keywords.filter
        (fun p => p.2.any (fun kw => isSubOf kw (toLowerStr q)))).map Prod.fst with
    | nil => rw [hl] at hmem1; cases hmem1
    | cons a t => rfl
  simp only [hne, if_false, Bool.false_eq_true]
  exact hmem1

lemma expandStep_subset (llm : Str → Except Unit Str) (acc : Finset Str)
    (o : Str) : acc ⊆ expandStep llm acc o := by
  unfold expandStep
  cases OFFENSE_CACHE.lookup (toLowerStr o) with
  | some syns => exact Finset.subset_union_left
  | none =>
    cases llm o with
    | ok content => exact Finset.subset_union_left
    | error e => exact Finset.subset_insert _ _

lemma foldl_expandStep_subset (llm : Str → Except Unit Str) (l : List Str) :
    ∀ acc : Finset Str, acc ⊆ l.foldl (expandStep llm) acc := by
  induction l with
  | nil => intro acc; exact Finset.Subset.refl acc
  | cons a t ih =>
    intro acc
    rw [List.foldl_cons]
    exact (expandStep_subset llm acc a).trans (ih _)

lemma fillRelevantActs_acts_isSome (d : ScenarioDict) (q : Str) :
    (fillRelevantActs d q).relevant_acts.isSome = true := by
  unfold fillRelevantActs
  by_cases h : d.relevant_acts.getD [] = []
  · simp [h]
  · rw [if_neg h]
    cases hr : d.relevant_acts with
    | none => rw [hr] at h; simp at h
    | some l => simp [hr]

lemma dictFalsy_fill_false (d : ScenarioDict) (q : Str) :
    dictFalsy (fillRelevantActs d q) = false := by
  have h := fillRelevantActs_acts_isSome d q
  unfold dictFalsy
  cases hr : (fillRelevantActs d q).relevant_acts with
  | none => rw [hr] at h; simp at h
  | some l => simp [hr]

lemma scenario_search_key_fill (d : ScenarioDict) (q : Str) :
    scenario_search_key (fillRelevantActs d q) q = scenario_search_key d q := by
  unfold fillRelevantActs scenario_search_key
  by_cases h : d.relevant_acts.getD [] = [] <;> simp [h]

lemma groupTexts_nil : groupTexts [] = [] := rfl

lemma groupTexts_cons (a : Str) (vs : List Str) (t : List (Str × List Str)) :
    groupTexts ((a, vs) :: t) = vs ++ groupTexts t := by
  simp [groupTexts]

lemma groupTexts_appendToAct (groups : List (Str × List Str)) (act v : Str) :
    (groupTexts (appendToAct groups act v)).Perm (v :: groupTexts groups) := by
  induction groups with
  | nil =>
    simp [appendToAct, groupTexts]
  | cons p t ih =>
    obtain ⟨a, vs⟩ := p
    by_cases h : a = act
    · rw [appendToAct, if_pos h, groupTexts_cons, groupTexts_cons,
        List.append_assoc, List.singleton_append]
      exact List.perm_middle
    · rw [appendToAct, if_neg h, groupTexts_cons, groupTexts_cons]
      exact ((ih.append_left vs).trans List.perm_middle)

lemma drsStep_invariant (mentioned : List Str)
    (st : List (Str × List Str) × List Str) (meta : MetaRec)
    (h1 : (groupTexts st.1).Nodup) (h2 : ∀ t ∈ groupTexts st.1, t ∈ st.2) :
    (groupTexts (drsStep mentioned st meta).1).Nodup
    ∧ ∀ t ∈ groupTexts (drsStep mentioned st meta).1,
        t ∈ (drsStep mentioned st meta).2 := by
  unfold drsStep
  by_cases hc : mentioned = [] ∨ meta.sectionNum.getD [] ∈ mentioned
  · rw [if_pos hc]
    by_cases ht :
        pyStrip ((meta.section_display.getD
            ("Section ".data ++ meta.sectionNum.getD [])) ++ ": ".data ++
          meta.heading.getD []) ≠ []
        ∧ pyStrip ((meta.section_display.getD
            ("Section ".data ++ meta.sectionNum.getD [])) ++ ": ".data ++
          meta.heading.getD []) ∉ st.2
    · rw [if_pos ht]
      have hperm := groupTexts_appendToAct st.1
        (meta.act.getD "BNS".data)
        (pyStrip ((meta.section_display.getD
            ("Section ".data ++ meta.sectionNum.getD [])) ++ ": ".data ++
          meta.heading.getD []))
      have hnotmem : pyStrip ((meta.section_display.getD
            ("Section ".data ++ meta.sectionNum.getD [])) ++ ": ".data ++
          meta.heading.getD []) ∉ groupTexts st.1 := by
        intro hmem
        exact ht.2 (h2 _ hmem)
      constructor
      · exact hperm.nodup_iff.mpr (List.nodup_cons.mpr ⟨hnotmem, h1⟩)
      · intro t hmem
        rcases List.mem_cons.mp (hperm.mem_iff.mp hmem) with h | h
        · exact h ▸ List.mem_cons_self _ _
        · exact List.mem_cons_of_mem _ (h2 t h)
    · rw [if_neg ht]
      exact ⟨h1, h2⟩
  · rw [if_neg hc]
    exact ⟨h1, h2⟩

lemma drs_fold_invariant (mentioned : List Str) (metas : List MetaRec) :
    ∀ st : List (Str × List Str) × List Str,
      (groupTexts st.1).Nodup → (∀ t ∈ groupTexts st.1, t ∈ st.2) →
      (groupTexts (metas.foldl (drsStep mentioned) st).1).Nodup := by
  induction metas with
  | nil => intro st h1 _; exact h1
  | cons m rest ih =>
    intro st h1 h2
    rw [List.foldl_cons]
    obtain ⟨h1', h2'⟩ := drsStep_invariant mentioned st m h1 h2
    exact ih _ h1' h2'

/-! ## Claim theorems -/

/-- C1: for every query, `retrieve_direct`'s result has documents and
metadatas of equal length (index-aligned pairs), and when every per-corpus
index query fails the result is the empty pair, not an error. -/
theorem retrieve_direct_aligned_and_failure_empty (env : RetrEnv) (q : Str)
    (n : Nat) :
    (retrieve_direct env q n).documents.length
      = (retrieve_direct env q n).metadatas.length
    ∧ ((∀ idx ∈ retrievalIndexes q, env q idx n = none) →
        retrieve_direct env q n = ⟨[], []⟩) := by
  constructor
  · simp only [retrieve_direct, List.length_map]
  · intro h
    have hnil : ((retrievalIndexes q).map (fun idx =>
        match env q idx n with
        | some hits => cleanHits hits
        | none => [])).flatten = ([] : List (Str × MetaRec)) := by
      apply flatten_eq_nil_of_forall
      intro idx hidx
      rw [h idx hidx]
    simp only [retrieve_direct, hnil, List.map_nil]

/-- Witness for C1 at a concrete all-failing environment. -/
theorem retrieve_direct_aligned_and_failure_empty_witness :
    (retrieve_direct (fun _ _ _ => (none : Option (List Hit))) "theft".data
        5).documents.length
      = (retrieve_direct (fun _ _ _ => (none : Option (List Hit))) "theft".data
        5).metadatas.length
    ∧ retrieve_direct (fun _ _ _ => (none : Option (List Hit))) "theft".data 5
      = ⟨[], []⟩ :=
  ⟨(retrieve_direct_aligned_and_failure_empty _ _ _).1,
   (retrieve_direct_aligned_and_failure_empty _ _ _).2 (fun _ _ => rfl)⟩

/-- C6: a query matching one of the section-reference patterns is classified
`section` without invoking the model-based classifier (`false` in the second
component). -/
theorem classify_query_section_shortcircuit (llm : Str → Except Unit Str)
    (q : Str) (h : is_section_query q = true) :
    classify_query llm q = (Except.ok "section".data, false) := by
  simp [classify_query, h]

/-- Witness for C6 at a concrete section query, with an environment whose
every call fails, so the result can only come from the short-circuit. -/
theorem classify_query_section_shortcircuit_witness :
    is_section_query "What is IPC section 378".data = true
    ∧ classify_query (fun _ => Except.error ()) "What is IPC section 378".data
        = (Except.ok "section".data, false) :=
  ⟨by decide, classify_query_section_shortcircuit _ _ (by decide)⟩

/-- C7: a query in which no corpus keyword occurs is mapped to exactly the
full five-corpus list, and a query containing some corpus's keyword is
mapped to a list containing that corpus. -/
theorem detect_acts_from_query_spec (q : Str) :
    ((∀ p ∈ act_keywords, ∀ kw ∈ p.2, isSubOf kw (toLowerStr q) = false) →
      detect_acts_from_query q = allActs)
    ∧ (∀ p ∈ act_keywords, ∀ kw ∈ p.2, isSubOf kw (toLowerStr q) = true →
        p.1 ∈ detect_acts_from_query q) :=
  ⟨detect_acts_all_of_no_keyword q,
   fun p hp kw hkw hs => detect_acts_mem_of_keyword q p hp kw hkw hs⟩

/-- Witness for C7: a keyword-free query yields all five corpora, and the
keyword `evidence` puts `bsa` in the result. -/
theorem detect_acts_from_query_spec_witness :
    detect_acts_from_query "hello there".data = allActs
    ∧ "bsa".data ∈ detect_acts_from_query "the evidence shows".data :=
  ⟨(detect_acts_from_query_spec "hello there".data).1 (by decide),
   (detect_acts_from_query_spec "the evidence shows".data).2
     ("bsa".data, ["bsa".data, "evidence".data, "evidence act".data,
       "proof".data, "witness".data, "exhibit".data])
     (by decide) "evidence".data (by decide) (by decide)⟩

/-- C2 counterexample: an offense served from the static synonym cache is
dropped from the output — `"theft"` is not in
`expand_offenses(["theft"])`, even though it is the input term (the cache
branch unions in only the synonyms and `continue`s past the code that would
keep the original). -/
theorem expand_offenses_cache_drops_input :
    "theft".data ∉ expand_offenses (fun _ => Except.error ()) ["theft".data] := by
  decide

/-- C2 amended: the output of `expand_offenses` contains every input term
that misses the static cache — even when its model call fails — and, for a
cache-hit term, the cached synonyms (but not necessarily the term itself). -/
theorem expand_offenses_superset_except_cache (llm : Str → Except Unit Str)
    (l : List Str) (o : Str) (ho : o ∈ l) :
    (OFFENSE_CACHE.lookup (toLowerStr o) = none → o ∈ expand_offenses llm l)
    ∧ (∀ syns, OFFENSE_CACHE.lookup (toLowerStr o) = some syns →
        ∀ s ∈ syns, s ∈ expand_offenses llm l) := by
  obtain ⟨pre, post, rfl⟩ := List.append_of_mem ho
  have hins : ∀ x : Str,
      x ∈ expandStep llm (pre.foldl (expandStep llm) ∅) o →
      x ∈ expand_offenses llm (pre ++ o :: post) := by
    intro x hx
    unfold expand_offenses
    rw [List.foldl_append, List.foldl_cons]
    exact foldl_expandStep_subset llm post _ hx
  constructor
  · intro hnone
    apply hins
    unfold expandStep
    rw [hnone]
    cases hllm : llm o with
    | ok content =>
      refine Finset.mem_union_right _ ?_
      rw [List.mem_toFinset]
      exact List.mem_cons_self _ _
    | error e => exact Finset.mem_insert_self _ _
  · intro syns hsome s hs
    apply hins
    unfold expandStep
    rw [hsome]
    exact Finset.mem_union_right _ (List.mem_toFinset.mpr hs)

/-- Witness for the amended C2: with every model call failing, the
non-cached input `"arson"` survives verbatim and the cached input
`"theft"` contributes its synonym `"larceny"`. -/
theorem expand_offenses_superset_except_cache_witness :
    "arson".data ∈ expand_offenses (fun _ => Except.error ())
        ["arson".data, "theft".data]
    ∧ "larceny".data ∈ expand_offenses (fun _ => Except.error ())
        ["arson".data, "theft".data] :=
  ⟨(expand_offenses_superset_except_cache (fun _ => Except.error ())
      ["arson".data, "theft".data] "arson".data (by decide)).1 (by decide),
   (expand_offenses_superset_except_cache (fun _ => Except.error ())
      ["arson".data, "theft".data] "theft".data (by decide)).2
     ["larceny".data, "stealing".data] (by decide) "larceny".data (by decide)⟩

/-- C3 counterexample: with a query that is not a section query, a failing
classification call does not send the pipeline down the scenario path —
the exception is caught by `run_legal_analysis`'s handler, which shows an
error (surfacing the failure) and leaves an empty retrieval result, whereas
the scenario path (same environments, classifier answering) would have
produced documents. -/
theorem classify_failure_surfaced_cex :
    run_retrieval (fun _ => Except.error ()) (fun _ => Except.ok theftDict)
        (fun _ _ _ => some [h0]) "hello".data = (⟨[], []⟩, true)
    ∧ (run_retrieval (fun _ => Except.ok "scenario".data)
        (fun _ => Except.ok theftDict)
        (fun _ _ _ => some [h0]) "hello".data).1.documents ≠ [] := by
  constructor
  · decide
  · decide

/-- C3 amended: when the classification call returns any label other than
`direct` (recognized or not) the pipeline proceeds down the scenario path;
when the call raises, the outer handler catches it, an error banner is
shown (the failure is surfaced), and the retrieval result is the empty
pair. -/
theorem classify_failure_amended (cEnv : Str → Except Unit Str)
    (sEnv : Str → Except Unit ScenarioDict) (rEnv : RetrEnv) (q : Str)
    (hn : normalize_section_query q = none) :
    (∀ label, (classify_query cEnv q).1 = Except.ok label →
      label ≠ "direct".data →
      run_retrieval cEnv sEnv rEnv q =
        (match scenarioBranch sEnv rEnv q with
         | Except.ok r => (r, false)
         | Except.error _ => (⟨[], []⟩, true)))
    ∧ (∀ e, (classify_query cEnv q).1 = Except.error e →
        run_retrieval cEnv sEnv rEnv q = (⟨[], []⟩, true)) := by
  constructor
  · intro label hok hne
    simp only [run_retrieval, hn, hok, if_neg hne]
  · intro e herr
    simp only [run_retrieval, hn, herr]

/-- Witness for the amended C3: an unrecognized label `"weird"` follows the
scenario path (no error banner), while a raised classification call yields
the empty pair with the error banner shown. -/
theorem classify_failure_amended_witness :
    run_retrieval (fun _ => Except.ok "weird".data) (fun _ => Except.ok theftDict)
        (fun _ _ _ => none) "hello".data = (⟨[], []⟩, false)
    ∧ run_retrieval (fun _ => Except.error ()) (fun _ => Except.ok theftDict)
        (fun _ _ _ => none) "hello".data = (⟨[], []⟩, true) := by
  constructor
  · have h := (classify_failure_amended (fun _ => Except.ok "weird".data)
      (fun _ => Except.ok theftDict) (fun _ _ _ => none) "hello".data
      (by decide)).1 "weird".data rfl (by decide)
    exact h.trans (by decide)
  · exact (classify_failure_amended (fun _ => Except.error ())
      (fun _ => Except.ok theftDict) (fun _ _ _ => none) "hello".data
      (by decide)).2 () rfl

/-- C4 counterexample: when the scenario analysis raises (transport error or
malformed JSON), the pipeline does not fall back to direct retrieval over
the raw query — the exception reaches the outer handler, which reports an
error and leaves the empty retrieval result, even though raw-query
retrieval would have returned documents in the same environment. -/
theorem scenario_failure_no_fallback_cex :
    run_retrieval (fun _ => Except.ok "scenario".data) (fun _ => Except.error ())
        (fun _ _ _ => some [h0]) "hello".data = (⟨[], []⟩, true)
    ∧ (query_all_acts (fun _ _ _ => some [h0]) "hello".data 4).documents ≠ [] := by
  constructor
  · decide
  · decide

/-- C4 amended: a scenario-analysis failure propagates to the outer handler
of `run_legal_analysis`: an error is surfaced and the retrieval result is
the empty pair, not a raw-query fallback.  The raw-query fallback branch
(`if not scenario_data`) fires only for a falsy analysis dict, which
`analyze_scenario` never returns on success. -/
theorem scenario_failure_amended (cEnv : Str → Except Unit Str)
    (sEnv : Str → Except Unit ScenarioDict) (rEnv : RetrEnv) (q : Str)
    (hn : normalize_section_query q = none) :
    (∀ label, (classify_query cEnv q).1 = Except.ok label →
      label ≠ "direct".data → sEnv q = Except.error () →
      run_retrieval cEnv sEnv rEnv q = (⟨[], []⟩, true))
    ∧ (∀ d sd, sEnv q = Except.ok d → analyze_scenario sEnv q = Except.ok sd →
        dictFalsy sd = false) := by
  constructor
  · intro label hok hne hs
    simp only [run_retrieval, hn, hok, if_neg hne, scenarioBranch,
      analyze_scenario, hs]
  · intro d sd hs hana
    rw [analyze_scenario, hs] at hana
    have hsd : sd = fillRelevantActs d q := by
      cases hana
      rfl
    rw [hsd]
    exact dictFalsy_fill_false d q

/-- Witness for the amended C4: concrete environments exercising both the
failure branch and the never-falsy property of the analysis result. -/
theorem scenario_failure_amended_witness :
    run_retrieval (fun _ => Except.ok "weird".data) (fun _ => Except.error ())
        (fun _ _ _ => some [h0]) "hello".data = (⟨[], []⟩, true)
    ∧ dictFalsy (fillRelevantActs ⟨none, none, none, none⟩ "hello".data)
        = false := by
  constructor
  · exact (scenario_failure_amended (fun _ => Except.ok "weird".data)
      (fun _ => Except.error ()) (fun _ _ _ => some [h0]) "hello".data
      (by decide)).1 "weird".data rfl (by decide) rfl
  · exact (scenario_failure_amended (fun _ => Except.ok "weird".data)
      (fun _ => Except.ok ⟨none, none, none, none⟩) (fun _ _ _ => some [h0])
      "hello".data (by decide)).2 ⟨none, none, none, none⟩
      (fillRelevantActs ⟨none, none, none, none⟩ "hello".data) rfl rfl

/-- C5 counterexample: the claim quantifies over every normalized section
number, but a number that itself contains a corpus keyword defeats the
all-five fan-out: `"section 2023"` normalizes to `"2023"`, yet the synthetic
query `"Section 2023"` matches the `bns` keyword `2023`, so only
`bns_sections` is queried — one hit comes back where five would if every
index were queried. -/
theorem section_resolver_not_all_indexes_cex :
    normalize_section_query "section 2023".data = some "2023".data
    ∧ retrievalIndexes ("Section ".data ++ "2023".data) = ["bns_sections".data]
    ∧ (search_section_all_acts (fun _ _ _ => some [h0])
        "2023".data).documents.length = 1 := by
  refine ⟨by decide, by decide, by decide⟩

/-- C5 amended: for a query with a normalized section number `n`, retrieval
issues the synthetic query `"Section n"` against the indexes the Act
Detector selects for that synthetic query — the full five-corpus set
whenever `n` brings in no corpus keyword — and falls back to a generic
semantic search over the original query text when zero documents come
back. -/
theorem section_resolver_amended (cEnv : Str → Except Unit Str)
    (sEnv : Str → Except Unit ScenarioDict) (rEnv : RetrEnv) (q n : Str)
    (hn : normalize_section_query q = some n) :
    run_retrieval cEnv sEnv rEnv q =
      (if (search_section_all_acts rEnv n).documents.isEmpty
       then query_all_acts rEnv q 3 else search_section_all_acts rEnv n, false)
    ∧ ((∀ p ∈ act_keywords, ∀ kw ∈ p.2,
          isSubOf kw (toLowerStr ("Section ".data ++ n)) = false) →
        retrievalIndexes ("Section ".data ++ n)
          = allActs.map (fun a => a ++ "_sections".data)) := by
  constructor
  · simp only [run_retrieval, hn]
  · intro h
    unfold retrievalIndexes
    rw [detect_acts_all_of_no_keyword _ h]

/-- Witness for the amended C5 at `"section 302"`: all-failing indexes make
the section search empty, so the dispatch falls back to the raw query, and
`"Section 302"` contains no corpus keyword, so all five indexes are
targeted. -/
theorem section_resolver_amended_witness :
    run_retrieval (fun _ => Except.error ()) (fun _ => Except.error ())
        (fun _ _ _ => none) "section 302".data = (⟨[], []⟩, false)
    ∧ retrievalIndexes ("Section ".data ++ "302".data)
        = allActs.map (fun a => a ++ "_sections".data) := by
  have h := section_resolver_amended (fun _ => Except.error ())
    (fun _ => Except.error ()) (fun _ _ _ => none) "section 302".data
    "302".data (by decide)
  exact ⟨h.1.trans (by decide), h.2 (by decide)⟩

/-- C8 counterexample: on the scenario path with
`primary_offense="theft"`, the retrieval environment answers only the exact
raw search key `"theft"` (and only on the `bns` index), yet retrieval
succeeds — the pipeline searched the raw offense name, not the joined
Concept-Expander output, which for `["theft"]` is the set
`{"larceny", "stealing"}` (no join of which equals `"theft"`); indeed
`expand_offenses` is never called by `run_legal_analysis`. -/
theorem scenario_key_not_expanded_cex :
    run_retrieval (fun _ => Except.ok "scenario".data)
        (fun _ => Except.ok theftDict)
        (fun qt idx _ =>
          if qt = "theft".data ∧ idx = "bns_sections".data then some [h0]
          else none)
        "my neighbor stole my bike".data
      = ({ documents := [h0.document], metadatas := [h0.meta] }, false)
    ∧ expand_offenses (fun _ => Except.error ()) ["theft".data]
        = {"larceny".data, "stealing".data} := by
  constructor
  · decide
  · decide

/-- C8 amended: on the scenario path with a successful structured analysis,
the retrieval search key is the space-join of the raw primary and related
offense names (primary defaulting to the query text); the Concept Expander
plays no part in it. -/
theorem scenario_key_amended (cEnv : Str → Except Unit Str)
    (sEnv : Str → Except Unit ScenarioDict) (rEnv : RetrEnv) (q label : Str)
    (d : ScenarioDict)
    (hn : normalize_section_query q = none)
    (hok : (classify_query cEnv q).1 = Except.ok label)
    (hne : label ≠ "direct".data)
    (hs : sEnv q = Except.ok d) :
    run_retrieval cEnv sEnv rEnv q =
      (query_all_acts rEnv (scenario_search_key d q) 4, false) := by
  simp only [run_retrieval, hn, hok, if_neg hne, scenarioBranch,
    analyze_scenario, hs, dictFalsy_fill_false, if_false,
    scenario_search_key_fill, Bool.false_eq_true]

/-- Witness for the amended C8: primary `"theft"` and related
`["robbery"]` produce the raw joined key `"theft robbery"`. -/
theorem scenario_key_amended_witness :
    run_retrieval (fun _ => Except.ok "scenario".data)
        (fun _ => Except.ok ⟨some "theft".data, some ["robbery".data], none, none⟩)
        (fun _ _ _ => none) "hello".data
      = (query_all_acts (fun _ _ _ => none) "theft robbery".data 4, false) := by
  have h := scenario_key_amended (fun _ => Except.ok "scenario".data)
    (fun _ => Except.ok ⟨some "theft".data, some ["robbery".data], none, none⟩)
    (fun _ _ _ => none) "hello".data "scenario".data
    ⟨some "theft".data, some ["robbery".data], none, none⟩
    (by decide) rfl (by decide) rfl
  exact h.trans (by decide)

/-- C9 counterexample: the citation list that `run_legal_analysis` builds
and `render_message` groups by act performs no deduplication — the same
stored metadata retrieved twice yields the same `(display, heading)` entry
twice inside one act group of one rendering. -/
theorem citations_ui_duplicate_cex :
    groupByActUI (buildSectionsUI [] [c9meta, c9meta])
      = [("BNS".data,
          ["Section 045: Murder".data, "Section 045: Murder".data])] := by
  decide

/-- C9 amended: in the `chat_app.display_referenced_sections` rendering the
entry texts `f"{display}: {heading}"` across all act groups are pairwise
distinct (the `seen` set deduplicates), so no `(display, heading)` pair
appears twice; the `chat_ui` rendering (`run_legal_analysis` +
`render_message`) does not deduplicate. -/
theorem display_referenced_sections_nodup (metas : List MetaRec)
    (analysis : Str) :
    (groupTexts (display_referenced_sections metas analysis)).Nodup := by
  unfold display_referenced_sections
  exact drs_fold_invariant (extract_section_numbers analysis) metas ([], [])
    List.nodup_nil (fun t ht => absurd ht (List.not_mem_nil t))

/-- C10: the citation filter compares the digit strings extracted from the
generated analysis with the stored `section` field by exact string
membership, and ingestion zero-pads stored sections to width 3
(`format_section_number "45" = "045"`), so an analysis that mentions
section numbers without mentioning the padded form `"045"` excludes a
provision stored as `"045"` from the citation list. -/
theorem citation_filter_padding_mismatch (analysis : Str) (m : MetaRec)
    (hne : extract_section_numbers analysis ≠ [])
    (hnm : "045".data ∉ extract_section_numbers analysis)
    (hm : m.sectionNum = some "045".data) :
    buildSectionsUI analysis [m] = []
    ∧ format_section_number "45".data = "045".data := by
  constructor
  · simp only [buildSectionsUI, safe_display_metadata, hm, Option.getD_some,
      List.filterMap_cons, List.filterMap_nil]
    rw [if_neg]
    intro hor
    rcases hor with h | h
    · exact hne h
    · exact hnm h
  · decide

/-- Witness for C10: the analysis text `"Section 45 applies."` mentions
`45` but not `045`, so the provision stored with section `"045"` is
excluded. -/
theorem citation_filter_padding_mismatch_witness :
    buildSectionsUI "Section 45 applies.".data [c10meta] = []
    ∧ format_section_number "45".data = "045".data :=
  citation_filter_padding_mismatch "Section 45 applies.".data c10meta
    (by decide) (by decide) rfl
